import Mathlib

/-!
Verification development for the client-side Solana orchestration pipeline
(account resolution, account provisioning, keypair generation, airdrop retry,
and IDL catalog parsing).

The definitions below are a shallow embedding of the TypeScript source:
  - `src/app/api/accounts/route.ts` (ACCOUNT_SIZES, getInstructionAccounts,
    generateAccountsForInstruction),
  - `src/utils/contractParser.ts` (generateAccountStructure,
    generateAccountClass, requestAirdropWithRetry, createAccountInstruction,
    parseRustContract, generateKeypairsForAccounts, generateMarketKeypairs).

Modelling conventions:
  - A Solana public key / address is a `String` (its base58 rendering).
  - `Keypair.generate()` is nondeterministic in the source; it is embedded by
    threading an explicit fresh-supply counter: the n-th generated keypair is
    the natural number n, and its public key is `freshAddr n`.
  - The network rent oracle `connection.getMinimumBalanceForRentExemption` is
    an explicit function parameter `rent : Nat -> Nat`.
  - JavaScript `x || d` on numbers/strings (falsy fallback) is `jsOrNum` /
    `jsOrStr`; `x ?? d` is `Option.getD`.
-/

/-- Base58 rendering of `PublicKey.default`, which is what the route resolves
the `systemProgram` role to (`PublicKey.default.toString()`). -/
def PublicKeyDefault : String := "11111111111111111111111111111111"

/-- The SPL token program id constant `TOKEN_PROGRAM_ID`. -/
def TOKEN_PROGRAM_ID : String := "TokenkegQfeZyiNwAJbNbGKPFXCWuBvf9Ss623VQ5DA"

/-- The rent sysvar constant `SYSVAR_RENT_PUBKEY`. -/
def SYSVAR_RENT_PUBKEY : String := "SysvarRent111111111111111111111111111111111"

/-- The OpenBook program id used as owner of every provisioned account. -/
def OPENBOOK_PROGRAM_ID : String := "opnb2LAfJYbRMAHHvqjCwQxanZn7ReEHp1k81EohpZb"

/-- Public key of the n-th keypair drawn from the fresh-key supply
(embedding of `Keypair.generate().publicKey.toString()`). -/
def freshAddr (n : Nat) : String := "generated:" ++ toString n

/-- JavaScript `x || d` for an optional number (`undefined` and `0` are falsy). -/
def jsOrNum : Option Nat → Nat → Nat
  | some n, d => if n = 0 then d else n
  | none, d => d

/-- JavaScript `x || d` for an optional string (`undefined` and `""` are falsy). -/
def jsOrStr : Option String → String → String
  | some s, d => if s = "" then d else s
  | none, d => d

/-- JavaScript `String.prototype.toUpperCase` on ASCII strings. -/
def toUpperStr (s : String) : String := String.mk (s.data.map Char.toUpper)

/-- The `ACCOUNT_SIZES` table of `route.ts` (role key, in the exact
upper-snake-case spelling of the source, to configured byte size). -/
def ACCOUNT_SIZES : String → Option Nat
  | "BIDS" => some 65536
  | "ASKS" => some 65536
  | "EVENT_HEAP" => some 65536
  | "OPEN_ORDERS" => some 8192
  | "OPEN_ORDERS_INDEXER" => some 4096
  | "MARKET" => some 1024
  | "STUB_ORACLE" => some 512
  | _ => none

/-- Size chosen by the route for a mutable account role:
`ACCOUNT_SIZES[acc.name.toUpperCase()] || 1024`. -/
def sizeForRole (name : String) : Nat := jsOrNum (ACCOUNT_SIZES (toUpperStr name)) 1024

/-- One entry of an instruction account list (the source interface
`AccountField`; the source field `type` is `fieldType` here). -/
structure AccountField where
  name : String
  fieldType : String
  isMut : Bool
  isSigner : Bool
  isOptional : Bool
deriving DecidableEq, Repr

/-- The source interface `AccountDefinition`. -/
structure AccountDefinition where
  name : String
  accounts : List AccountField
deriving DecidableEq, Repr

/-- A `SystemProgram.createAccount` instruction as built by
`createAccountInstruction`. -/
structure CreateIx where
  fromPubkey : String
  newAccountPubkey : String
  lamports : Nat
  space : Nat
  programId : String
deriving DecidableEq, Repr

/-- Embedding of `createAccountInstruction` of `contractParser.ts`: generates a
fresh keypair (here: draws `freshAddr ctr` and advances the counter), funds it
with the explicit `lamports` if supplied, else with the rent-oracle answer for
`space`, and returns the new account plus the create-account instruction. -/
def createAccountInstruction (rent : Nat → Nat) (payer : String) (space : Nat)
    (owner : String) (lamports : Option Nat) (ctr : Nat) : String × CreateIx × Nat :=
  let account := freshAddr ctr
  let rentExemptBalance := lamports.getD (rent space)
  (account, ⟨payer, account, rentExemptBalance, space, owner⟩, ctr + 1)

/-- The per-account body of the `for (const acc of accounts)` loop of
`generateAccountsForInstruction` in `route.ts`. Returns the resolved address,
the optional create-account instruction, and the advanced fresh-key counter. -/
def resolveOne (rent : Nat → Nat) (payer : String) (keypairs : List (String × String))
    (acc : AccountField) (ctr : Nat) : String × Option CreateIx × Nat :=
  if acc.name = "systemProgram" then (PublicKeyDefault, none, ctr)
  else if acc.name = "tokenProgram" then (TOKEN_PROGRAM_ID, none, ctr)
  else if acc.isMut then
    let size := sizeForRole acc.name
    let r := createAccountInstruction rent payer size OPENBOOK_PROGRAM_ID none ctr
    (r.1, some r.2.1, r.2.2)
  else if acc.isSigner then (payer, none, ctr)
  else (jsOrStr (List.lookup acc.name keypairs) payer, none, ctr)

/-- Result of `generateAccountsForInstruction`: the `result` record (role name
to resolved address, in account-list order), the `instructions` record (key
`name ++ "Ix"` to create instruction; the source returns `undefined` when this
is empty), and the final fresh-key counter. -/
structure GenResult where
  result : List (String × String)
  instructions : List (String × CreateIx)
  finalCtr : Nat
deriving DecidableEq, Repr

/-- Embedding of `generateAccountsForInstruction` of `route.ts`: resolves each
account of the instruction account list in declared order via `resolveOne`,
threading the fresh-key counter through the create-account calls. -/
def generateAccountsForInstruction (rent : Nat → Nat) (payer : String)
    (accounts : List AccountField) (keypairs : List (String × String))
    (ctr : Nat) : GenResult :=
  match accounts with
  | [] => ⟨[], [], ctr⟩
  | acc :: rest =>
    let one := resolveOne rent payer keypairs acc ctr
    let r := generateAccountsForInstruction rent payer rest keypairs one.2.2
    ⟨(acc.name, one.1) :: r.result,
     (match one.2.1 with
      | some ix => (acc.name ++ "Ix", ix) :: r.instructions
      | none => r.instructions),
     r.finalCtr⟩

/-- One instruction entry of the fetched IDL document, as consumed by
`getInstructionAccounts`. -/
structure IdlInstruction where
  name : String
  accounts : List AccountField
deriving DecidableEq, Repr

/-- Embedding of `getInstructionAccounts` of `route.ts`: looks the function
name up in `idl.instructions` and throws when it is absent. -/
def getInstructionAccounts (functionName : String)
    (instructions : List IdlInstruction) : Except String (List AccountField) :=
  match instructions.find? (fun ix => ix.name == functionName) with
  | some instruction => Except.ok instruction.accounts
  | none => Except.error ("Instruction " ++ functionName ++ " not found in IDL")

/-- The `commonAccounts` list of `generateAccountStructure`. -/
def commonAccounts : List AccountField :=
  [⟨"systemProgram", "publicKey", false, false, false⟩,
   ⟨"tokenProgram", "publicKey", false, false, false⟩,
   ⟨"rent", "publicKey", false, false, false⟩]

/-- The `createMarket` entry of the `accountMap` of `generateAccountStructure`. -/
def createMarketAccounts : List AccountField :=
  [⟨"market", "publicKey", true, true, false⟩,
   ⟨"marketAuthority", "publicKey", false, false, false⟩,
   ⟨"bids", "publicKey", true, false, false⟩,
   ⟨"asks", "publicKey", true, false, false⟩,
   ⟨"eventHeap", "publicKey", true, false, false⟩,
   ⟨"payer", "publicKey", true, true, false⟩,
   ⟨"marketBaseVault", "publicKey", true, false, false⟩,
   ⟨"marketQuoteVault", "publicKey", true, false, false⟩,
   ⟨"baseMint", "publicKey", false, false, false⟩,
   ⟨"quoteMint", "publicKey", false, false, false⟩,
   ⟨"oracleA", "publicKey", false, false, false⟩,
   ⟨"oracleB", "publicKey", false, false, false⟩,
   ⟨"collectFeeAdmin", "publicKey", false, false, false⟩,
   ⟨"openOrdersAdmin", "publicKey", false, false, true⟩,
   ⟨"consumeEventsAdmin", "publicKey", false, false, true⟩,
   ⟨"eventAuthority", "publicKey", false, false, false⟩]

/-- The `placeOrder` entry of the `accountMap` of `generateAccountStructure`. -/
def placeOrderAccounts : List AccountField :=
  [⟨"signer", "publicKey", false, true, false⟩,
   ⟨"openOrdersAccount", "publicKey", true, false, false⟩,
   ⟨"market", "publicKey", true, false, false⟩,
   ⟨"bids", "publicKey", true, false, false⟩,
   ⟨"asks", "publicKey", true, false, false⟩,
   ⟨"eventHeap", "publicKey", true, false, false⟩,
   ⟨"marketVault", "publicKey", true, false, false⟩,
   ⟨"userTokenAccount", "publicKey", true, false, false⟩]

/-- The `accountMap` object literal of `generateAccountStructure`. -/
def accountMapLookup : String → Option (List AccountField)
  | "createMarket" => some createMarketAccounts
  | "placeOrder" => some placeOrderAccounts
  | _ => none

/-- The class-name computation of `generateAccountStructure`:
`instructionName.charAt(0).toUpperCase() + instructionName.slice(1) + "Accounts"`. -/
def classNameFor (instructionName : String) : String :=
  match instructionName.data with
  | [] => "Accounts"
  | c :: cs => String.mk (Char.toUpper c :: cs) ++ "Accounts"

/-- Embedding of `generateAccountStructure` of `contractParser.ts`: the
instruction-specific accounts (`accountMap[instructionName] || []`) followed by
the common accounts. -/
def generateAccountStructure (instructionName : String) : AccountDefinition :=
  ⟨classNameFor instructionName, ((accountMapLookup instructionName).getD []) ++ commonAccounts⟩

/-- The per-field constructor-assignment line emitted by `generateAccountClass`
of `contractParser.ts` (the only part of that string template with branching
behavior: the three well-known roles are assigned their constants). -/
def constructorAssignment (acc : AccountField) : String :=
  if acc.name = "systemProgram" then "    this.systemProgram = SystemProgram.programId;"
  else if acc.name = "tokenProgram" then "    this.tokenProgram = TOKEN_PROGRAM_ID;"
  else if acc.name = "rent" then "    this.rent = SYSVAR_RENT_PUBKEY;"
  else "    this." ++ acc.name ++ " = " ++ acc.name ++ ";"

/-- The byte sizes that `executeTransaction` of `contractParser.ts` passes to
`createAccountInstruction` for its setup accounts (source lines 389-408). -/
def executeTransactionSetupSpaces : List (String × Nat) :=
  [("bids", 65536), ("asks", 65536), ("eventHeap", 65536)]


/-!
Embedding of `requestAirdropWithRetry` of `contractParser.ts`.

Each loop iteration performs, in order: `connection.requestAirdrop` (a new
on-ledger funding submission returning a fresh signature),
`connection.confirmTransaction` on that just-obtained signature, and
`connection.getBalance`. The iteration succeeds when the confirmation call
does not throw and the balance is positive; otherwise the caught error is
rethrown on the last iteration, and before every other retry the loop sleeps
`1000 * 2 ^ i` milliseconds. The network's behavior at attempt `i` is the
environment value `env i`; the run is recorded as a trace of `NetEvent`s so
that attempt counts, delays, and (re)submissions are observable.
-/

/-- Observable network interaction of one airdrop-retry run. -/
inductive NetEvent where
  | submitted : Nat → String → NetEvent
  | confirmChecked : Nat → String → NetEvent
  | balanceChecked : Nat → Nat → NetEvent
  | delayed : Nat → Nat → NetEvent
deriving DecidableEq, Repr

/-- Network behavior at one attempt: the signature `requestAirdrop` returns,
whether `confirmTransaction` returns without throwing, and the balance that
`getBalance` then reports. -/
structure AttemptEnv where
  sig : String
  confirmOk : Bool
  balance : Nat
deriving DecidableEq, Repr

/-- Whether the attempt's `try` block reaches its `return signature`. -/
def attemptOk (e : AttemptEnv) : Bool := e.confirmOk && decide (0 < e.balance)

/-- The network calls one loop iteration makes (the balance is only read when
confirmation did not throw). -/
def attemptEvents (i : Nat) (e : AttemptEnv) : List NetEvent :=
  if e.confirmOk then
    [NetEvent.submitted i e.sig, NetEvent.confirmChecked i e.sig,
     NetEvent.balanceChecked i e.balance]
  else
    [NetEvent.submitted i e.sig, NetEvent.confirmChecked i e.sig]

/-- The error rethrown when the last attempt fails. -/
def attemptError (e : AttemptEnv) : String :=
  if e.confirmOk then "Airdrop failed: Balance not updated"
  else "confirmTransaction failed"

/-- The retry loop of `requestAirdropWithRetry`, with `remaining` iterations
left and `i` the current value of the loop counter (the loop runs while
`i < maxRetries`, so `remaining = maxRetries - i`; `remaining = 0` after the
loop corresponds to the trailing `throw` of the source). -/
def airdropLoop (env : Nat → AttemptEnv) :
    Nat → Nat → List NetEvent × Except String String
  | 0, _ => ([], Except.error "All airdrop attempts failed")
  | remaining + 1, i =>
    let e := env i
    if attemptOk e then (attemptEvents i e, Except.ok e.sig)
    else if remaining = 0 then (attemptEvents i e, Except.error (attemptError e))
    else
      let rest := airdropLoop env remaining (i + 1)
      (attemptEvents i e ++ NetEvent.delayed i (1000 * 2 ^ i) :: rest.1, rest.2)

/-- Embedding of `requestAirdropWithRetry` (default `maxRetries` in the source
is 3): returns the run's network trace and its outcome. -/
def requestAirdropWithRetry (env : Nat → AttemptEnv) (maxRetries : Nat) :
    List NetEvent × Except String String :=
  airdropLoop env maxRetries 0

/-- Whether a trace event is an on-ledger submission (`requestAirdrop` call). -/
def isSubmitEvent : NetEvent → Bool
  | NetEvent.submitted _ _ => true
  | _ => false

/-- Number of on-ledger submissions in a trace. -/
def submitCount (t : List NetEvent) : Nat := (t.filter isSubmitEvent).length

/-- The delay, if the event is a backoff sleep. -/
def delayOfEvent : NetEvent → Option Nat
  | NetEvent.delayed _ d => some d
  | _ => none

/-- The inter-attempt delays of a trace, in order. -/
def delaysOf (t : List NetEvent) : List Nat := t.filterMap delayOfEvent

/-!
Embedding of keypair generation (`contractParser.ts`). A keypair is its index
in the fresh-key supply; its public key is `freshAddr` of that index.
-/

/-- The loop body of `generateKeypairsForAccounts`: walks the account list and
draws a fresh keypair for every account with `isMut && isSigner`, storing it
under the account's name. -/
def genKeypairsLoop : List AccountField → Nat → List (String × Nat) × Nat
  | [], ctr => ([], ctr)
  | a :: rest, ctr =>
    if a.isMut && a.isSigner then
      let r := genKeypairsLoop rest (ctr + 1)
      ((a.name, ctr) :: r.1, r.2)
    else genKeypairsLoop rest ctr

/-- Embedding of `generateKeypairsForAccounts` of `contractParser.ts`. -/
def generateKeypairsForAccounts (accountDef : AccountDefinition) (ctr : Nat) :
    List (String × Nat) × Nat :=
  genKeypairsLoop accountDef.accounts ctr

/-- Embedding of `generateMarketKeypairs` of `contractParser.ts`: every call
draws five fresh keypairs and stores them under the five fixed labels. -/
def generateMarketKeypairs (ctr : Nat) : List (String × Nat) × Nat :=
  ([("payer", ctr), ("market", ctr + 1), ("bids", ctr + 2), ("asks", ctr + 3),
    ("eventHeap", ctr + 4)], ctr + 5)

/-!
Embedding of `parseRustContract` of `contractParser.ts`. The input document is
abstracted to the cases the source distinguishes: `JSON.parse` throws
(`invalidJson`), the parsed value has no well-formed `instructions` array so
the `.map` throws (`noInstructionArray`), or a well-formed instruction list.
The source wraps everything in `try ... catch`, and the catch returns `[]`.
-/

/-- The `type` field of an IDL instruction argument: either a JSON string
(taken as-is) or a non-string JSON value (carried as its `JSON.stringify`
rendering). -/
inductive ArgTy where
  | strTy : String → ArgTy
  | objTy : String → ArgTy
deriving DecidableEq, Repr

/-- Rendering chosen by the source:
`typeof arg.type === "string" ? arg.type : JSON.stringify(arg.type)`. -/
def argTyRender : ArgTy → String
  | ArgTy.strTy s => s
  | ArgTy.objTy s => s

/-- An argument entry of an IDL instruction. -/
structure RawArg where
  name : String
  ty : ArgTy
deriving DecidableEq, Repr

/-- An instruction entry of the IDL document (`returns` carries the
`JSON.stringify` rendering when the field is present). -/
structure RawInstruction where
  name : String
  args : List RawArg
  returns : Option String
deriving DecidableEq, Repr

/-- The source interface `ContractFunction` (arguments as name-type pairs). -/
structure ContractFunction where
  name : String
  arguments : List (String × String)
  returnType : String
deriving DecidableEq, Repr

/-- An IDL document as seen by `parseRustContract`. -/
inductive IdlDocument where
  | invalidJson : IdlDocument
  | noInstructionArray : IdlDocument
  | valid : List RawInstruction → IdlDocument
deriving DecidableEq, Repr

/-- Embedding of `parseRustContract`: the `try` body maps the instruction list
to `ContractFunction`s; any parse failure lands in the `catch`, which logs and
returns the empty list. -/
def parseRustContract : IdlDocument → List ContractFunction
  | IdlDocument.invalidJson => []
  | IdlDocument.noInstructionArray => []
  | IdlDocument.valid instrs =>
    instrs.map fun instruction =>
      ⟨instruction.name,
       instruction.args.map fun arg => (arg.name, argTyRender arg.ty),
       instruction.returns.getD "void"⟩


/-!
Concrete inputs used by the witnesses and counterexamples below.
-/

/-- Resolution of the `createMarket` account structure with no caller-supplied
addresses (the keypair map is empty), payer address `"payerPub"`, a rent
oracle answering 0, and a fresh-key counter starting at 0. -/
def c1Run : GenResult :=
  generateAccountsForInstruction (fun _ => 0) "payerPub"
    (generateAccountStructure "createMarket").accounts [] 0

/-- The mutable, signing `market` requirement of `createMarket`. -/
def marketField : AccountField := ⟨"market", "publicKey", true, true, false⟩

/-- The non-mutable `quoteMint` requirement of `createMarket`. -/
def quoteMintField : AccountField := ⟨"quoteMint", "publicKey", false, false, false⟩

/-- A non-mutable signer requirement (shape of `placeOrder`'s `signer` slot). -/
def signerField : AccountField := ⟨"signer", "publicKey", false, true, false⟩

/-- The `rent` requirement from the common account list. -/
def rentField : AccountField := ⟨"rent", "publicKey", false, false, false⟩

/-- Resolution of just the common accounts with no caller-supplied addresses. -/
def c4Run : GenResult :=
  generateAccountsForInstruction (fun _ => 0) "payerPub" commonAccounts [] 0

/-- Network behavior for the end-to-end retry scenario: the first attempt
times out at confirmation, the second confirms but the balance stays 0, the
third succeeds. -/
def c6Env : Nat → AttemptEnv
  | 0 => ⟨"sigA", false, 0⟩
  | 1 => ⟨"sigB", true, 0⟩
  | _ => ⟨"sigC", true, 7⟩

/-- Network behavior where the first submission reaches confirmed state but
the balance read still reports 0, and the second attempt succeeds. -/
def c7Env : Nat → AttemptEnv
  | 0 => ⟨"s0", true, 0⟩
  | _ => ⟨"s1", true, 7⟩

/-!
Helper lemmas about the retry loop.
-/

theorem submitCount_append (a b : List NetEvent) :
    submitCount (a ++ b) = submitCount a + submitCount b := by
  simp [submitCount, List.filter_append]

theorem submitCount_attemptEvents (i : Nat) (e : AttemptEnv) :
    submitCount (attemptEvents i e) = 1 := by
  cases h : e.confirmOk <;> simp [attemptEvents, h, submitCount, isSubmitEvent]

theorem submitCount_delayed_cons (i d : Nat) (t : List NetEvent) :
    submitCount (NetEvent.delayed i d :: t) = submitCount t := by
  simp [submitCount, isSubmitEvent]

theorem delaysOf_append (a b : List NetEvent) :
    delaysOf (a ++ b) = delaysOf a ++ delaysOf b := by
  simp [delaysOf]

theorem delaysOf_attemptEvents (i : Nat) (e : AttemptEnv) :
    delaysOf (attemptEvents i e) = [] := by
  cases h : e.confirmOk <;> simp [attemptEvents, h, delaysOf, delayOfEvent]

theorem delaysOf_delayed_cons (i d : Nat) (t : List NetEvent) :
    delaysOf (NetEvent.delayed i d :: t) = d :: delaysOf t := by
  simp [delaysOf, delayOfEvent]

theorem submitCount_airdropLoop_le (env : Nat → AttemptEnv) :
    ∀ r i, submitCount (airdropLoop env r i).1 ≤ r := by
  intro r
  induction r with
  | zero => intro i; simp [airdropLoop, submitCount]
  | succ r ih =>
    intro i
    by_cases hok : attemptOk (env i) = true
    · simp [airdropLoop, hok, submitCount_attemptEvents]
    · by_cases hr0 : r = 0
      · simp [airdropLoop, hok, hr0, submitCount_attemptEvents]
      · have h1 := ih (i + 1)
        simp [airdropLoop, hok, hr0, submitCount_append, submitCount_attemptEvents,
          submitCount_delayed_cons]
        omega

theorem one_le_submitCount_airdropLoop (env : Nat → AttemptEnv) (r i : Nat)
    (hr : 1 ≤ r) : 1 ≤ submitCount (airdropLoop env r i).1 := by
  cases r with
  | zero => omega
  | succ r =>
    by_cases hok : attemptOk (env i) = true
    · simp [airdropLoop, hok, submitCount_attemptEvents]
    · by_cases hr0 : r = 0
      · simp [airdropLoop, hok, hr0, submitCount_attemptEvents]
      · simp [airdropLoop, hok, hr0, submitCount_append, submitCount_attemptEvents,
          submitCount_delayed_cons]

theorem delaysOf_airdropLoop (env : Nat → AttemptEnv) :
    ∀ r i, delaysOf (airdropLoop env r i).1 =
      (List.range (submitCount (airdropLoop env r i).1 - 1)).map
        (fun j => 1000 * 2 ^ (i + j)) := by
  intro r
  induction r with
  | zero => intro i; simp [airdropLoop, delaysOf, submitCount]
  | succ r ih =>
    intro i
    by_cases hok : attemptOk (env i) = true
    · simp [airdropLoop, hok, delaysOf_attemptEvents, submitCount_attemptEvents]
    · by_cases hr0 : r = 0
      · simp [airdropLoop, hok, hr0, delaysOf_attemptEvents, submitCount_attemptEvents]
      · have hge : 1 ≤ submitCount (airdropLoop env r (i + 1)).1 :=
          one_le_submitCount_airdropLoop env r (i + 1) (by omega)
        have hrec := ih (i + 1)
        simp [airdropLoop, hok, hr0, delaysOf_append, delaysOf_attemptEvents,
          delaysOf_delayed_cons, submitCount_append, submitCount_attemptEvents,
          submitCount_delayed_cons]
        rw [hrec]
        obtain ⟨m, hm⟩ : ∃ m, submitCount (airdropLoop env r (i + 1)).1 = m + 1 :=
          ⟨submitCount (airdropLoop env r (i + 1)).1 - 1, by omega⟩
        rw [hm]
        have h2 : m + 1 - 1 = m := by omega
        rw [h2, List.range_succ_eq_map, List.map_cons, List.map_map]
        have hfun : ((fun j => 1000 * 2 ^ (i + j)) ∘ Nat.succ) =
            fun j => 1000 * 2 ^ (i + 1 + j) := by
          funext j
          simp only [Function.comp]
          have : i + Nat.succ j = i + 1 + j := by omega
          rw [this]
        rw [hfun]
        simp

theorem airdropLoop_success (env : Nat → AttemptEnv) :
    ∀ k r i, 1 ≤ k → k ≤ r →
      (∀ j, j < k - 1 → attemptOk (env (i + j)) = false) →
      attemptOk (env (i + (k - 1))) = true →
      submitCount (airdropLoop env r i).1 = k ∧
      (airdropLoop env r i).2 = Except.ok (env (i + (k - 1))).sig := by
  intro k
  induction k with
  | zero => intro r i h1; omega
  | succ k ih =>
    intro r i h1 hkr hfail hsucc
    cases r with
    | zero => omega
    | succ r =>
      cases k with
      | zero =>
        have hok : attemptOk (env i) = true := by simpa using hsucc
        refine ⟨?_, ?_⟩
        · simp [airdropLoop, hok, submitCount_attemptEvents]
        · simp [airdropLoop, hok]
      | succ kk =>
        have hfail0 : attemptOk (env i) = false := by
          have h := hfail 0 (by omega)
          simpa using h
        have hr0 : r ≠ 0 := by omega
        have hok : ¬ attemptOk (env i) = true := by simp [hfail0]
        have ihres := ih r (i + 1) (by omega) (by omega)
          (fun j hj => by
            have h := hfail (j + 1) (by omega)
            have harg : i + (j + 1) = i + 1 + j := by omega
            rw [harg] at h
            exact h)
          (by
            have h := hsucc
            have harg : i + (kk + 1 + 1 - 1) = i + 1 + (kk + 1 - 1) := by omega
            rw [harg] at h
            exact h)
        have harg2 : i + (kk + 1 + 1 - 1) = i + 1 + (kk + 1 - 1) := by omega
        refine ⟨?_, ?_⟩
        · simp [airdropLoop, hok, hr0, submitCount_append, submitCount_attemptEvents,
            submitCount_delayed_cons]
          omega
        · rw [harg2]
          simpa [airdropLoop, hok, hr0] using ihres.2

theorem pairwise_le_delaysOf (env : Nat → AttemptEnv) (maxRetries : Nat) :
    List.Pairwise (fun a b => a ≤ b)
      (delaysOf (requestAirdropWithRetry env maxRetries).1) := by
  rw [requestAirdropWithRetry, delaysOf_airdropLoop]
  refine List.Pairwise.map _ ?_ (List.pairwise_lt_range _)
  intro a b hab
  exact Nat.mul_le_mul_left 1000 (Nat.pow_le_pow_right (by norm_num) (by omega))

theorem submitted_mem_airdropLoop (env : Nat → AttemptEnv) (r i : Nat) (hr : 1 ≤ r) :
    NetEvent.submitted i (env i).sig ∈ (airdropLoop env r i).1 := by
  cases r with
  | zero => omega
  | succ r =>
    have hmem : NetEvent.submitted i (env i).sig ∈ attemptEvents i (env i) := by
      cases h : (env i).confirmOk <;> simp [attemptEvents, h]
    by_cases hok : attemptOk (env i) = true
    · simpa [airdropLoop, hok] using hmem
    · by_cases hr0 : r = 0
      · simpa [airdropLoop, hok, hr0] using hmem
      · simp only [airdropLoop, hok, hr0]
        simp [hok, hr0, List.mem_append, hmem]

theorem confirmChecked_mem_attemptEvents (i0 i : Nat) (e : AttemptEnv) (s : String)
    (h : NetEvent.confirmChecked i s ∈ attemptEvents i0 e) : i = i0 ∧ s = e.sig := by
  cases hconf : e.confirmOk <;> simp [attemptEvents, hconf] at h <;> exact h

theorem confirmChecked_sig_airdropLoop (env : Nat → AttemptEnv) :
    ∀ r i0 i s, NetEvent.confirmChecked i s ∈ (airdropLoop env r i0).1 →
      s = (env i).sig := by
  intro r
  induction r with
  | zero => intro i0 i s h; simp [airdropLoop] at h
  | succ r ih =>
    intro i0 i s h
    by_cases hok : attemptOk (env i0) = true
    · rw [show (airdropLoop env (r + 1) i0).1 = attemptEvents i0 (env i0) by
        simp [airdropLoop, hok]] at h
      obtain ⟨h1, h2⟩ := confirmChecked_mem_attemptEvents i0 i (env i0) s h
      rw [h1, h2]
    · by_cases hr0 : r = 0
      · rw [show (airdropLoop env (r + 1) i0).1 = attemptEvents i0 (env i0) by
          simp [airdropLoop, hok, hr0]] at h
        obtain ⟨h1, h2⟩ := confirmChecked_mem_attemptEvents i0 i (env i0) s h
        rw [h1, h2]
      · rw [show (airdropLoop env (r + 1) i0).1 =
            attemptEvents i0 (env i0) ++
              NetEvent.delayed i0 (1000 * 2 ^ i0) :: (airdropLoop env r (i0 + 1)).1 by
          simp [airdropLoop, hok, hr0]] at h
        rcases List.mem_append.mp h with hpre | hrest
        · obtain ⟨h1, h2⟩ := confirmChecked_mem_attemptEvents i0 i (env i0) s hpre
          rw [h1, h2]
        · rcases List.mem_cons.mp hrest with hd | htail
          · simp at hd
          · exact ih (i0 + 1) i s htail

/-!
Claim theorems.
-/

/-- C1: evaluation of the code at the failing input. Resolving `createMarket`
with no caller-supplied addresses sizes the `bids` and `asks` create-account
entries at the configured 65536 bytes, but sizes the `eventHeap` entry at the
generic default 1024 even though the size table configures `EVENT_HEAP` as
65536 and `executeTransaction` itself allocates the event heap with 65536:
the case normalization maps `eventHeap` to `EVENTHEAP`, which misses the
snake-case table key, so the configured size is unreachable for that role. -/
theorem c1_eventheap_size_divergence :
    ACCOUNT_SIZES "EVENT_HEAP" = some 65536 ∧
    toUpperStr "eventHeap" = "EVENTHEAP" ∧
    ACCOUNT_SIZES (toUpperStr "eventHeap") = none ∧
    (List.lookup "bidsIx" c1Run.instructions).map CreateIx.space = some 65536 ∧
    (List.lookup "asksIx" c1Run.instructions).map CreateIx.space = some 65536 ∧
    (List.lookup "eventHeapIx" c1Run.instructions).map CreateIx.space = some 1024 ∧
    List.lookup "eventHeap" executeTransactionSetupSpaces = some 65536 := by
  decide

/-- C2 (counterexample): for the mutable `market` requirement, even though the
keypair map supplies an address for `market`, resolution ignores the supplied
address, resolves the role to a freshly generated account, and attaches a
create-account instruction — contradicting the claim that a caller-supplied
address is always used unchanged with no provisioning. -/
theorem c2_claim_false :
    (generateAccountsForInstruction (fun _ => 0) "payerA" [marketField]
        [("market", "suppliedMarketAddr")] 0).result = [("market", freshAddr 0)] ∧
    freshAddr 0 ≠ "suppliedMarketAddr" ∧
    (generateAccountsForInstruction (fun _ => 0) "payerA" [marketField]
        [("market", "suppliedMarketAddr")] 0).instructions =
      [("marketIx", ⟨"payerA", freshAddr 0, 0, 1024, OPENBOOK_PROGRAM_ID⟩)] := by
  decide

/-- C2 (amended): a caller-supplied address is used unchanged, with no
create-account provisioning, only for roles that are not the well-known
constants, not mutable, and not signers; for a mutable non-constant role the
resolver always creates a fresh account and attaches a create-account
instruction, ignoring any address the keypair map supplies for that role. -/
theorem c2_supplied_address_scope (rent : Nat → Nat) (payer : String)
    (keypairs : List (String × String)) (accK accM : AccountField) (ctr : Nat)
    (v : String)
    (hK1 : accK.name ≠ "systemProgram") (hK2 : accK.name ≠ "tokenProgram")
    (hK3 : accK.isMut = false) (hK4 : accK.isSigner = false)
    (hK5 : List.lookup accK.name keypairs = some v) (hK6 : v ≠ "")
    (hM1 : accM.name ≠ "systemProgram") (hM2 : accM.name ≠ "tokenProgram")
    (hM3 : accM.isMut = true) :
    resolveOne rent payer keypairs accK ctr = (v, none, ctr) ∧
    resolveOne rent payer keypairs accM ctr =
      (freshAddr ctr,
       some ⟨payer, freshAddr ctr, rent (sizeForRole accM.name),
             sizeForRole accM.name, OPENBOOK_PROGRAM_ID⟩,
       ctr + 1) := by
  constructor
  · simp [resolveOne, hK1, hK2, hK3, hK4, hK5, hK6, jsOrStr]
  · simp [resolveOne, hM1, hM2, hM3, createAccountInstruction]

/-- C2 (witness): for `quoteMint` (non-mutable, non-signer) the supplied
address is used unchanged with no provisioning, while for the mutable
`market` role the supplied address is ignored in favor of a fresh account. -/
theorem c2_supplied_address_scope_witness :
    resolveOne (fun _ => 0) "payerA"
        [("quoteMint", "knownQuoteMint"), ("market", "knownMarket")] quoteMintField 0 =
      ("knownQuoteMint", none, 0) ∧
    resolveOne (fun _ => 0) "payerA"
        [("quoteMint", "knownQuoteMint"), ("market", "knownMarket")] marketField 0 =
      (freshAddr 0,
       some ⟨"payerA", freshAddr 0, 0, sizeForRole "market", OPENBOOK_PROGRAM_ID⟩,
       1) :=
  c2_supplied_address_scope (fun _ => 0) "payerA"
    [("quoteMint", "knownQuoteMint"), ("market", "knownMarket")]
    quoteMintField marketField 0 "knownQuoteMint"
    (by decide) (by decide) (by decide) (by decide) (by decide) (by decide)
    (by decide) (by decide) (by decide)

/-- C3 (counterexample): for a non-mutable signer requirement whose role has a
generated keypair stored in the supplied map, resolution returns the
fee-payer's address, not the stored keypair's address — contradicting the
claim that the stored keypair takes precedence over the fee-payer. -/
theorem c3_claim_false :
    resolveOne (fun _ => 0) "payerA" [("signer", "storedSignerAddr")] signerField 0 =
      ("payerA", none, 0) ∧
    "payerA" ≠ "storedSignerAddr" := by
  decide

/-- C3 (amended): every non-mutable, non-constant requirement with
`signer == true` resolves to the fee-payer's address unconditionally; the
supplied keypair map is never consulted for signer slots (it is consulted
only for non-signer, non-mutable slots). -/
theorem c3_signer_resolves_to_payer (rent : Nat → Nat) (payer : String)
    (keypairs : List (String × String)) (acc : AccountField) (ctr : Nat)
    (h1 : acc.name ≠ "systemProgram") (h2 : acc.name ≠ "tokenProgram")
    (h3 : acc.isMut = false) (h4 : acc.isSigner = true) :
    resolveOne rent payer keypairs acc ctr = (payer, none, ctr) := by
  simp [resolveOne, h1, h2, h3, h4]

/-- C3 (witness): the `signer` slot of `placeOrder` resolves to the fee-payer
even when the map stores an address under `signer`. -/
theorem c3_signer_resolves_to_payer_witness :
    resolveOne (fun _ => 0) "payerB" [("signer", "storedSignerAddr")] signerField 5 =
      ("payerB", none, 5) :=
  c3_signer_resolves_to_payer (fun _ => 0) "payerB" [("signer", "storedSignerAddr")]
    signerField 5 (by decide) (by decide) (by decide) (by decide)

/-- C4 (counterexample): resolving the common account list, `systemProgram`
and `tokenProgram` resolve to their constants, but `rent` resolves to the
fee-payer's address, not to `SYSVAR_RENT_PUBKEY` — contradicting the claim
that the `rent` role resolves to the rent sysvar constant. -/
theorem c4_claim_false :
    c4Run.result =
      [("systemProgram", PublicKeyDefault), ("tokenProgram", TOKEN_PROGRAM_ID),
       ("rent", "payerPub")] ∧
    c4Run.instructions = [] ∧
    "payerPub" ≠ SYSVAR_RENT_PUBKEY := by
  decide

/-- C4 (amended): in `generateAccountsForInstruction`, roles named
`systemProgram` and `tokenProgram` resolve to the system-program and
token-program constants and are never provisioned, regardless of their
mutable/signer flags and of the keypair map; the role `rent` is not treated
as a constant there — a non-mutable, non-signer `rent` slot with no map entry
falls back to the fee-payer — and only the generated account class
(`generateAccountClass`) assigns `rent` the `SYSVAR_RENT_PUBKEY` constant. -/
theorem c4_constants_resolution (rent : Nat → Nat) (payer : String)
    (keypairs : List (String × String)) (accS accT accR : AccountField) (ctr : Nat)
    (hS : accS.name = "systemProgram") (hT : accT.name = "tokenProgram")
    (hR : accR.name = "rent") (hRm : accR.isMut = false) (hRs : accR.isSigner = false)
    (hRk : List.lookup "rent" keypairs = none) :
    resolveOne rent payer keypairs accS ctr = (PublicKeyDefault, none, ctr) ∧
    resolveOne rent payer keypairs accT ctr = (TOKEN_PROGRAM_ID, none, ctr) ∧
    resolveOne rent payer keypairs accR ctr = (payer, none, ctr) ∧
    constructorAssignment accR = "    this.rent = SYSVAR_RENT_PUBKEY;" := by
  refine ⟨?_, ?_, ?_, ?_⟩
  · simp [resolveOne, hS]
  · simp [resolveOne, hT]
  · simp [resolveOne, hR, hRm, hRs, hRk, jsOrStr]
  · simp [constructorAssignment, hR]

/-- C4 (witness): a mutable, signing `systemProgram` slot and a mutable
`tokenProgram` slot still resolve to their constants with no provisioning;
the common `rent` slot resolves to the fee-payer; the generated class assigns
`rent` its sysvar constant. -/
theorem c4_constants_resolution_witness :
    resolveOne (fun _ => 0) "payerA" [("market", "x")]
        ⟨"systemProgram", "publicKey", true, true, false⟩ 0 =
      (PublicKeyDefault, none, 0) ∧
    resolveOne (fun _ => 0) "payerA" [("market", "x")]
        ⟨"tokenProgram", "publicKey", true, false, false⟩ 0 =
      (TOKEN_PROGRAM_ID, none, 0) ∧
    resolveOne (fun _ => 0) "payerA" [("market", "x")] rentField 0 =
      ("payerA", none, 0) ∧
    constructorAssignment rentField = "    this.rent = SYSVAR_RENT_PUBKEY;" :=
  c4_constants_resolution (fun _ => 0) "payerA" [("market", "x")]
    ⟨"systemProgram", "publicKey", true, true, false⟩
    ⟨"tokenProgram", "publicKey", true, false, false⟩ rentField 0
    (by decide) (by decide) (by decide) (by decide) (by decide) (by decide)

/-- C5 (counterexample): for an instruction name absent from the hardcoded
account map, `generateAccountStructure` does not fail: it fabricates an
account structure consisting of just the three common accounts. -/
theorem c5_claim_false :
    generateAccountStructure "unknownIx" = ⟨"UnknownIxAccounts", commonAccounts⟩ ∧
    (generateAccountStructure "unknownIx").accounts.length = 3 := by
  decide

/-- C5 (amended): `getInstructionAccounts` fails with the
`Instruction ... not found in IDL` error for every name absent from the IDL
instruction catalog and returns no account list; `generateAccountStructure`,
however, returns a fabricated structure made of just the common accounts for
an instruction name absent from its account map, rather than failing. -/
theorem c5_unknown_instruction_behavior (functionName name2 : String)
    (instrs : List IdlInstruction)
    (h : ∀ ix ∈ instrs, ix.name ≠ functionName)
    (h2 : accountMapLookup name2 = none) :
    getInstructionAccounts functionName instrs =
      Except.error ("Instruction " ++ functionName ++ " not found in IDL") ∧
    generateAccountStructure name2 = ⟨classNameFor name2, commonAccounts⟩ := by
  constructor
  · have hnone : instrs.find? (fun ix => ix.name == functionName) = none := by
      rw [List.find?_eq_none]
      intro x hx
      simp [h x hx]
    simp [getInstructionAccounts, hnone]
  · simp [generateAccountStructure, h2]

/-- C5 (witness): `closeMarket` is absent from both catalogs; the IDL lookup
fails with the error, while the structure generator fabricates the
common-accounts structure. -/
theorem c5_unknown_instruction_behavior_witness :
    getInstructionAccounts "closeMarket" [⟨"createMarket", createMarketAccounts⟩] =
      Except.error "Instruction closeMarket not found in IDL" ∧
    generateAccountStructure "closeMarket" = ⟨"CloseMarketAccounts", commonAccounts⟩ :=
  c5_unknown_instruction_behavior "closeMarket" "closeMarket"
    [⟨"createMarket", createMarketAccounts⟩] (by decide) (by decide)

/-- C6: `requestAirdropWithRetry` makes at most `maxRetries` submissions, its
inter-attempt delays are non-decreasing, and whenever the first k-1 attempts
fail and attempt k succeeds (1 ≤ k ≤ maxRetries), exactly k submissions are
made, the successful attempt's signature is returned, and the delay inserted
before retry i+1 is exactly 1000 * 2 ^ i milliseconds. -/
theorem c6_retry_bound_and_backoff (env : Nat → AttemptEnv) (maxRetries : Nat) :
    submitCount (requestAirdropWithRetry env maxRetries).1 ≤ maxRetries ∧
    List.Pairwise (fun a b => a ≤ b)
      (delaysOf (requestAirdropWithRetry env maxRetries).1) ∧
    ∀ k, 1 ≤ k → k ≤ maxRetries →
      (∀ j, j < k - 1 → attemptOk (env j) = false) →
      attemptOk (env (k - 1)) = true →
      submitCount (requestAirdropWithRetry env maxRetries).1 = k ∧
      (requestAirdropWithRetry env maxRetries).2 = Except.ok (env (k - 1)).sig ∧
      delaysOf (requestAirdropWithRetry env maxRetries).1 =
        (List.range (k - 1)).map (fun j => 1000 * 2 ^ j) := by
  refine ⟨submitCount_airdropLoop_le env maxRetries 0,
    pairwise_le_delaysOf env maxRetries, ?_⟩
  intro k hk1 hkm hfail hsucc
  have hs := airdropLoop_success env k maxRetries 0 hk1 hkm
    (fun j hj => by simpa using hfail j hj) (by simpa using hsucc)
  refine ⟨hs.1, by simpa using hs.2, ?_⟩
  have hd := delaysOf_airdropLoop env maxRetries 0
  rw [show requestAirdropWithRetry env maxRetries = airdropLoop env maxRetries 0 from
    rfl]
  rw [hd, hs.1]
  simp

/-- C6 (witness): with a timeout, then a confirmed-but-unfunded attempt, then
a success, the run makes exactly 3 submissions, returns the third signature,
and sleeps 1000 then 2000 milliseconds. -/
theorem c6_retry_bound_and_backoff_witness :
    submitCount (requestAirdropWithRetry c6Env 3).1 ≤ 3 ∧
    List.Pairwise (fun a b => a ≤ b) (delaysOf (requestAirdropWithRetry c6Env 3).1) ∧
    submitCount (requestAirdropWithRetry c6Env 3).1 = 3 ∧
    (requestAirdropWithRetry c6Env 3).2 = Except.ok "sigC" ∧
    delaysOf (requestAirdropWithRetry c6Env 3).1 = [1000, 2000] := by
  obtain ⟨hA, hB, hC⟩ := c6_retry_bound_and_backoff c6Env 3
  have h3 := hC 3 (by decide) (by decide)
    (by
      intro j hj
      interval_cases j <;> decide)
    (by decide)
  refine ⟨hA, hB, h3.1, ?_, ?_⟩
  · rw [h3.2.1]
    rfl
  · rw [h3.2.2]
    decide

/-- C7 (counterexample): a run in which the first submission's confirmation
check succeeds but the balance reads 0: the loop submits a second, fresh
airdrop request without any re-check of the first signature between the
failure and the resubmission (visible in the explicit trace), and the final
result is the second signature rather than the already-confirmed first. -/
theorem c7_claim_false :
    requestAirdropWithRetry c7Env 3 =
      ([NetEvent.submitted 0 "s0", NetEvent.confirmChecked 0 "s0",
        NetEvent.balanceChecked 0 0, NetEvent.delayed 0 1000,
        NetEvent.submitted 1 "s1", NetEvent.confirmChecked 1 "s1",
        NetEvent.balanceChecked 1 7], Except.ok "s1") ∧
    (c7Env 0).confirmOk = true ∧
    submitCount (requestAirdropWithRetry c7Env 3).1 = 2 ∧
    (requestAirdropWithRetry c7Env 3).2 ≠ Except.ok (c7Env 0).sig := by
  refine ⟨rfl, rfl, by decide, ?_⟩
  intro h
  rw [show (requestAirdropWithRetry c7Env 3).2 = Except.ok "s1" from rfl,
    show (c7Env 0).sig = "s0" from rfl] at h
  exact absurd (Except.ok.inj h) (by decide)

/-- C7 (amended): the retry loop performs no confirmation re-check of an
earlier attempt's signature: every confirmation check in a run's trace
concerns the signature submitted in that same attempt, and after any failed
attempt with retries remaining — including one whose own submission was
confirmed but whose balance read zero — the loop submits a fresh request
carrying the next attempt's new signature, regardless of the previous
attempt's confirmation state. -/
theorem c7_resubmission_without_recheck (env : Nat → AttemptEnv) (r i i2 : Nat)
    (s : String)
    (hmem : NetEvent.confirmChecked i2 s ∈ (airdropLoop env r i).1)
    (hfail : attemptOk (env i) = false)
    (hr : 2 ≤ r) :
    s = (env i2).sig ∧
    NetEvent.submitted (i + 1) (env (i + 1)).sig ∈ (airdropLoop env r i).1 := by
  constructor
  · exact confirmChecked_sig_airdropLoop env r i i2 s hmem
  · cases r with
    | zero => omega
    | succ r =>
      have hr0 : r ≠ 0 := by omega
      have hok : ¬ attemptOk (env i) = true := by simp [hfail]
      have hsub := submitted_mem_airdropLoop env r (i + 1) (by omega)
      rw [show (airdropLoop env (r + 1) i).1 =
          attemptEvents i (env i) ++
            NetEvent.delayed i (1000 * 2 ^ i) :: (airdropLoop env r (i + 1)).1 by
        simp [airdropLoop, hok, hr0]]
      exact List.mem_append_right _ (List.mem_cons_of_mem _ hsub)

/-- C7 (witness): in the confirmed-but-unfunded run, the only re-check of the
signature `s0` is the one inside attempt 0 itself, and attempt 1 submits the
fresh signature of attempt 1. -/
theorem c7_resubmission_without_recheck_witness :
    ("s0" : String) = (c7Env 0).sig ∧
    NetEvent.submitted 1 (c7Env 1).sig ∈ (airdropLoop c7Env 3 0).1 :=
  c7_resubmission_without_recheck c7Env 3 0 0 "s0" (by decide) (by decide) (by decide)

/-- C8 (counterexample): requesting the `payer` keypair via a second call to
`generateMarketKeypairs` (as `executeTransaction` does after the route
handler) yields a different keypair from the one the first call stored. -/
theorem c8_claim_false :
    List.lookup "payer" (generateMarketKeypairs 0).1 = some 0 ∧
    List.lookup "payer" (generateMarketKeypairs (generateMarketKeypairs 0).2).1 =
      some 5 ∧
    (some 0 : Option Nat) ≠ some 5 := by
  decide

/-- C8 (amended): each call to `generateMarketKeypairs` builds a fresh store
assigning exactly one new keypair to each of the five fixed roles, so within
one call a role maps to a single keypair; but every subsequent call (the
route handler and `executeTransaction` each call it independently) draws five
new keypairs, so re-requesting the same role across calls yields a different
keypair rather than the first one. -/
theorem c8_keypair_regeneration (ctr : Nat) :
    (generateMarketKeypairs ctr).1.map Prod.fst =
      ["payer", "market", "bids", "asks", "eventHeap"] ∧
    List.lookup "payer" (generateMarketKeypairs ctr).1 = some ctr ∧
    (generateMarketKeypairs ctr).2 = ctr + 5 ∧
    List.lookup "payer" (generateMarketKeypairs ((generateMarketKeypairs ctr).2)).1 =
      some (ctr + 5) ∧
    List.lookup "payer" (generateMarketKeypairs ctr).1 ≠
      List.lookup "payer" (generateMarketKeypairs ((generateMarketKeypairs ctr).2)).1 := by
  refine ⟨rfl, ?_, rfl, ?_, ?_⟩
  · simp [generateMarketKeypairs, List.lookup]
  · simp [generateMarketKeypairs, List.lookup]
  · simp [generateMarketKeypairs, List.lookup]

/-- C9 (counterexample): a malformed catalog document (invalid JSON) makes
`parseRustContract` return the empty function list — the same normal result
as a well-formed catalog with no instructions — instead of surfacing a typed
failure to the caller. -/
theorem c9_claim_false :
    parseRustContract IdlDocument.invalidJson = [] ∧
    parseRustContract (IdlDocument.valid []) = [] ∧
    parseRustContract IdlDocument.invalidJson =
      parseRustContract (IdlDocument.valid []) :=
  ⟨rfl, rfl, rfl⟩

/-- C9 (amended): `parseRustContract` silently swallows every parse failure:
for each malformed catalog document (invalid JSON, or a document without the
expected instruction-array shape) the catch path returns the empty list,
indistinguishable from the result for an empty catalog; no typed
MalformedCatalog-style failure is surfaced to the caller. -/
theorem c9_malformed_swallowed (d : IdlDocument)
    (h : d = IdlDocument.invalidJson ∨ d = IdlDocument.noInstructionArray) :
    parseRustContract d = [] ∧
    parseRustContract d = parseRustContract (IdlDocument.valid []) := by
  rcases h with h | h <;> subst h <;> exact ⟨rfl, rfl⟩

/-- C9 (witness): the invalid-JSON document parses to the empty list, equal to
the result for the empty catalog. -/
theorem c9_malformed_swallowed_witness :
    parseRustContract IdlDocument.invalidJson = [] ∧
    parseRustContract IdlDocument.invalidJson =
      parseRustContract (IdlDocument.valid []) :=
  c9_malformed_swallowed IdlDocument.invalidJson (Or.inl rfl)

theorem genKeypairsLoop_keys : ∀ (accts : List AccountField) (ctr : Nat),
    (genKeypairsLoop accts ctr).1.map Prod.fst =
      ((accts.filter fun a => a.isMut && a.isSigner).map AccountField.name) := by
  intro accts
  induction accts with
  | nil => intro ctr; simp [genKeypairsLoop]
  | cons a rest ih =>
    intro ctr
    by_cases h : (a.isMut && a.isSigner) = true
    · simp [genKeypairsLoop, h, List.filter_cons, ih]
    · simp [genKeypairsLoop, h, List.filter_cons, ih]

/-- C10: for an account definition with distinct account names (so that the
source's `Map.set` coincides with association-list insertion),
`generateKeypairsForAccounts` stores exactly one fresh keypair per account
with both `isMut` and `isSigner` set, under that account's own name and in
declared order, and no keypair for any other account; for the `createMarket`
structure the stored roles are precisely `market` and `payer`. -/
theorem c10_keypairs_for_mut_signers (accountDef : AccountDefinition) (ctr : Nat)
    (hnd : (accountDef.accounts.map AccountField.name).Nodup) :
    (generateKeypairsForAccounts accountDef ctr).1.map Prod.fst =
      ((accountDef.accounts.filter fun a => a.isMut && a.isSigner).map
        AccountField.name) ∧
    (generateKeypairsForAccounts (generateAccountStructure "createMarket") 0).1.map
        Prod.fst = ["market", "payer"] := by
  constructor
  · exact genKeypairsLoop_keys accountDef.accounts ctr
  · decide

/-- C10 (witness): instantiation at the `createMarket` account structure. -/
theorem c10_keypairs_for_mut_signers_witness :
    (generateKeypairsForAccounts (generateAccountStructure "createMarket") 3).1.map
        Prod.fst =
      (((generateAccountStructure "createMarket").accounts.filter
          fun a => a.isMut && a.isSigner).map AccountField.name) ∧
    (generateKeypairsForAccounts (generateAccountStructure "createMarket") 0).1.map
        Prod.fst = ["market", "payer"] :=
  c10_keypairs_for_mut_signers (generateAccountStructure "createMarket") 3 (by decide)
